import Mathlib

/-
Verification of the Emby-Collection-Creator criteria-sync engine.

This file gives a shallow embedding, in Lean 4, of the program logic of
`src/emby_collection_creator/mcp/server.py` (criteria codec, quality-match
predicate, and sync engine) together with the data model of
`src/emby_collection_creator/models/emby.py`, and proves or refutes the
specification claims about it.

Conventions of the embedding:
- Python `str` is modelled as Lean `String` (a wrapper around `List Char`);
  raw character-list manipulation is used where the code does regex work.
- Python `int` is modelled as `Int`, Python `float` (community ratings,
  scores) as `Rat`; none of the verified claims depends on binary
  floating-point rounding.
- Python `None` becomes `Option.none`; Python truthiness of an optional
  value is made explicit by the `truthy*` helpers below (`None`, `0`,
  `0.0`, `""` and `[]` are falsy).
- Fallible operations return `Option`; a Python `try/except` that converts
  a parse error to `None` is therefore the identity on the `Option` result.
- The collaborator services (Emby REST client, TMDb client, Trakt client)
  are modelled as an explicit environment of pure functions, following the
  collaborator interface in the spec: a paginated `get_movies(offset,
  limit)` returning `(library.drop offset |>.take limit, library.length)`,
  a per-id full fetch, a TMDb lookup, and the Trakt list items.
-/

namespace EmbyCC

/-- Python `s.lower()` (ASCII case folding suffices for the data domain). -/
def lowerStr (s : String) : String := String.mk (s.data.map Char.toLower)

/-- Python `s.upper()`. -/
def upperStr (s : String) : String := String.mk (s.data.map Char.toUpper)

/-- Python `needle in haystack` for strings (substring containment). -/
def strContains (haystack needle : String) : Bool :=
  decide (needle.data <:+: haystack.data)

/-- Python truthiness of an optional string (`None` and `""` are falsy). -/
def truthyStr : Option String → Bool
  | none => false
  | some s => !s.data.isEmpty

/-- Python truthiness of an optional int (`None` and `0` are falsy). -/
def truthyInt : Option Int → Bool
  | none => false
  | some v => v != 0

/-- Python truthiness of an optional number (`None` and `0.0` are falsy). -/
def truthyRat : Option Rat → Bool
  | none => false
  | some v => v != 0

/-! ## Data model (`models/emby.py`) -/

/-- `models/emby.py` `VideoStream`. -/
structure VideoStream where
  codec : Option String := none
  codec_tag : Option String := none
  width : Option Int := none
  height : Option Int := none
  bit_depth : Option Int := none
  bitrate : Option Int := none
  hdr_type : Option String := none
  video_range : Option String := none
  color_space : Option String := none
  color_transfer : Option String := none
  color_primaries : Option String := none
  dv_profile : Option Int := none
  dv_level : Option Int := none
  dv_bl_present : Bool := false
  dv_el_present : Bool := false
  dv_rpu_present : Bool := false
  is_4k : Bool := false
  is_hdr : Bool := false
  is_dolby_vision : Bool := false
  is_hdr10_plus : Bool := false
  dv_layer_type : Option String := none
deriving DecidableEq

/-- `models/emby.py` `AudioStream`. -/
structure AudioStream where
  codec : Option String := none
  channels : Option Int := none
  channel_layout : Option String := none
  bitrate : Option Int := none
  sample_rate : Option Int := none
  language : Option String := none
  is_default : Bool := false
  is_atmos : Bool := false
  is_dts_x : Bool := false
  is_lossless : Bool := false
deriving DecidableEq

/-- `models/emby.py` `MediaInfo` (one media source of a movie). -/
structure MediaInfo where
  container : Option String := none
  file_size : Option Int := none
  total_bitrate : Option Int := none
  video : Option VideoStream := none
  audio_streams : List AudioStream := []
  primary_audio : Option AudioStream := none
deriving DecidableEq

/-- `models/emby.py` `Movie`. -/
structure Movie where
  id : String
  name : String
  year : Option Int := none
  genres : List String := []
  tags : List String := []
  community_rating : Option Rat := none
  critic_rating : Option Rat := none
  overview : Option String := none
  tmdb_id : Option String := none
  imdb_id : Option String := none
  production_year : Option Int := none
  studios : List String := []
  media_info : Option MediaInfo := none
  all_media_sources : List MediaInfo := []
deriving DecidableEq

/-- `models/tmdb.py` `TMDbKeyword`. -/
structure TMDbKeyword where
  id : Int
  name : String
deriving DecidableEq

/-- `models/tmdb.py` `TMDbMovie`, restricted to the field the sync engine
reads (`keywords`); the remaining enrichment fields are consumed only by the
out-of-core b-movie scoring service, which the embedding keeps as an opaque
environment function. -/
structure TMDbMovie where
  keywords : List TMDbKeyword := []
deriving DecidableEq

/-- `models/trakt.py` `TraktMovie`, restricted to the field the sync engine
reads (`tmdb_id : int | None`). -/
structure TraktMovie where
  tmdb_id : Option Int := none
deriving DecidableEq

/-- `models/trakt.py` `TraktListItem`, restricted to the field the sync
engine reads. -/
structure TraktListItem where
  movie : TraktMovie
deriving DecidableEq

/-! ## Resolution classification (`server.py:59-71`) -/

/-- `server.py` `_get_resolution_label`. -/
def _get_resolution_label (width : Option Int) : String :=
  match width with
  | none => "Unknown"
  | some w =>
    if w ≥ 3840 then "4K"
    else if w ≥ 1920 then "1080p"
    else if w ≥ 1280 then "720p"
    else if w ≥ 720 then "480p"
    else "SD"

/-! ## Audio format label (`server.py:74-100`) -/

/-- The label-derivation chain of `_get_audio_format_label`
(`server.py:79-100`), as a function of the single audio stream it actually
reads (the body of the source function depends only on
`media_info.primary_audio`). -/
def audioStreamLabel (audio : AudioStream) : Option String :=
  let codec := upperStr (audio.codec.getD "")
  if audio.is_atmos then
    if strContains codec "TRUEHD" then some "TrueHD Atmos" else some "Atmos"
  else if audio.is_dts_x then some "DTS:X"
  -- the `if audio.is_lossless:` block falls through to the plain codec
  -- checks when none of its three substrings match
  else if audio.is_lossless && strContains codec "TRUEHD" then some "TrueHD"
  else if audio.is_lossless && strContains codec "DTS" then some "DTS-HD MA"
  else if audio.is_lossless && strContains codec "FLAC" then some "FLAC"
  else if strContains codec "DTS" then some "DTS"
  else if strContains codec "AC3" || strContains codec "EAC3" then
    if strContains codec "EAC3" then some "DD+" else some "DD"
  else if strContains codec "AAC" then some "AAC"
  else if !codec.data.isEmpty then some codec else none

/-- `server.py` `_get_audio_format_label`: derives the display label from the
source's designated *primary* audio stream. -/
def _get_audio_format_label (media_info : Option MediaInfo) : Option String :=
  match media_info with
  | none => none
  | some mi =>
    match mi.primary_audio with
    | none => none
    | some audio => audioStreamLabel audio

/-! ## Audio criteria match (`server.py:154-182`) -/

/-- The label test of one iteration of the loop in
`_movie_matches_audio_criteria` (`server.py:166-167`): note the code calls
`_get_audio_format_label(media_info)` on the whole source, so the label is
derived from the source's primary audio stream and is the same on every
iteration — it does not depend on the loop's stream variable. -/
def primaryLabelMatches (mi : MediaInfo) (audio_formats : List String) : Bool :=
  match _get_audio_format_label (some mi) with
  | none => false
  | some audio_label =>
    !audio_label.data.isEmpty &&
      audio_formats.any (fun fmt => strContains (lowerStr audio_label) (lowerStr fmt))

/-- The three special-cased per-stream flag tests of one iteration of the
loop in `_movie_matches_audio_criteria` (`server.py:170-178`), in source
order (lossless, Atmos, DTS:X). -/
def streamFlagMatches (audio_formats : List String) (audio : AudioStream) : Bool :=
  (audio_formats.any (fun f => lowerStr f == "lossless") && audio.is_lossless) ||
  (audio_formats.any (fun f => lowerStr f == "atmos") && audio.is_atmos) ||
  (audio_formats.any (fun f => lowerStr f == "dts:x") && audio.is_dts_x)

/-- The `for audio in media_info.audio_streams` loop of
`_movie_matches_audio_criteria` (`server.py:165-178`): sets `audio_match`
and breaks at the first stream whose iteration hits one of the four tests. -/
def audioFormatLoop (mi : MediaInfo) (audio_formats : List String) :
    List AudioStream → Bool
  | [] => false
  | audio :: rest =>
    if primaryLabelMatches mi audio_formats then true
    else if streamFlagMatches audio_formats audio then true
    else audioFormatLoop mi audio_formats rest

/-- `server.py` `_movie_matches_audio_criteria`. -/
def _movie_matches_audio_criteria (media_info : Option MediaInfo)
    (audio_formats : List String) (require_lossless : Bool) : Bool :=
  match media_info with
  | none => false
  | some mi =>
    if require_lossless && !(mi.audio_streams.any (·.is_lossless)) then false
    else if !audio_formats.isEmpty then audioFormatLoop mi audio_formats mi.audio_streams
    else true

/-! ## Video criteria match (`server.py:185-212`) -/

/-- `server.py` `_source_matches_video_criteria`. -/
def _source_matches_video_criteria (media_info : Option MediaInfo)
    (resolution : Option String) (hdr_types : List String)
    (dv_profiles : List Int) (dv_layer : Option String) : Bool :=
  match media_info with
  | none => false
  | some m =>
    match m.video with
    | none => false
    | some v =>
      (if truthyStr resolution then
        _get_resolution_label v.width == resolution.getD "" else true) &&
      (if !hdr_types.isEmpty then
        hdr_types.any (fun h => v.hdr_type == some h) else true) &&
      (if !dv_profiles.isEmpty then
        dv_profiles.any (fun p => v.dv_profile == some p) else true) &&
      (if truthyStr dv_layer then
        v.dv_layer_type == some (dv_layer.getD "") else true)

/-! ## Movie-level quality match (`server.py:215-253`) -/

/-- The source list built at `server.py:225-227`: all media sources, with
`media_info` prepended when it is set and not already among them. -/
def sourcesOf (movie : Movie) : List MediaInfo :=
  let sources := movie.all_media_sources
  match movie.media_info with
  | none => sources
  | some mi => if mi ∈ sources then sources else mi :: sources

/-- `server.py` `_movie_matches_quality_criteria`. The source's `for` loop
breaks at the first source matching the video criteria (`List.find?`); when
it succeeds, `matching_source` is always set, so the code's `any`-over-
sources audio fallback (`server.py:248-251`) is unreachable and the audio
check always runs against that first video-matching source. -/
def _movie_matches_quality_criteria (movie : Movie)
    (resolution : Option String) (hdr_types : List String)
    (dv_profiles : List Int) (dv_layer : Option String)
    (audio_formats : List String) (require_lossless : Bool) : Bool :=
  let sources := sourcesOf movie
  if sources.isEmpty then false
  else
    match sources.find? (fun s =>
      _source_matches_video_criteria (some s) resolution hdr_types dv_profiles dv_layer) with
    | none => false
    | some matching_source =>
      if !audio_formats.isEmpty || require_lossless then
        _movie_matches_audio_criteria (some matching_source) audio_formats require_lossless
      else true

/-! ## Sync criteria and collaborator environment

The sync engine (`server.py:256-435`) receives the criteria as a decoded
JSON dict and reads it through `criteria.get(key, default)`. `Criteria`
records exactly those reads: each field is the value `criteria.get` would
return, with the source's defaults ([] for the list-valued keys, `False`
for `require_lossless_audio`, `None` otherwise). -/
structure Criteria where
  trakt_username : Option String := none
  trakt_list_slug : Option String := none
  genres : List String := []
  min_year : Option Int := none
  max_year : Option Int := none
  min_rating : Option Rat := none
  max_rating : Option Rat := none
  min_b_movie_score : Option Rat := none
  tags : List String := []
  keywords : List String := []
  resolution : Option String := none
  hdr_types : List String := []
  dv_profiles : List Int := []
  dv_layer : Option String := none
  audio_formats : List String := []
  require_lossless_audio : Bool := false
deriving DecidableEq

/-- The collaborator services used by `sync_collection_by_criteria`,
modelled as pure functions (spec §6). `emby.get_movies(offset, limit)` is
`((library.drop offset).take limit, library.length)`; `fullMovie` is
`emby.get_movie_by_id`; `tmdbMovie` is `tmdb.get_movie`; `bMovieScore` is
`tmdb.calculate_b_movie_score` (out-of-core scoring heuristic, kept
opaque); `trakt` is the Trakt service (`None` when absent), whose paginated
`get_list_items` pages are modelled by the full item list they concatenate
to. -/
structure SyncEnv where
  library : List Movie
  fullMovie : String → Option Movie
  tmdbMovie : String → Option TMDbMovie
  bMovieScore : TMDbMovie → Rat
  trakt : Option (List TraktListItem)

/-! ## First-pass cheap filters (`server.py:362-388`) -/

/-- Genre filter (`server.py:366-367`): `if genres: if not any(g in
movie.genres for g in genres): continue`. -/
def genrePass (genres : List String) (movie : Movie) : Bool :=
  if genres.isEmpty then true
  else genres.any (fun g => movie.genres.contains g)

/-- Lower year bound (`server.py:371`): `if min_year and (not movie.year or
movie.year < min_year): continue`. -/
def minYearPass (min_year : Option Int) (year : Option Int) : Bool :=
  match min_year with
  | none => true
  | some mn =>
    if mn = 0 then true
    else
      match year with
      | none => false
      | some y => if y = 0 then false else decide (mn ≤ y)

/-- Upper year bound (`server.py:373`). -/
def maxYearPass (max_year : Option Int) (year : Option Int) : Bool :=
  match max_year with
  | none => true
  | some mx =>
    if mx = 0 then true
    else
      match year with
      | none => false
      | some y => if y = 0 then false else decide (y ≤ mx)

/-- Lower rating bound (`server.py:377`). -/
def minRatingPass (min_rating : Option Rat) (rating : Option Rat) : Bool :=
  match min_rating with
  | none => true
  | some mn =>
    if mn = 0 then true
    else
      match rating with
      | none => false
      | some r => if r = 0 then false else decide (mn ≤ r)

/-- Upper rating bound (`server.py:379`). -/
def maxRatingPass (max_rating : Option Rat) (rating : Option Rat) : Bool :=
  match max_rating with
  | none => true
  | some mx =>
    if mx = 0 then true
    else
      match rating with
      | none => false
      | some r => if r = 0 then false else decide (r ≤ mx)

/-- Tag filter (`server.py:383-386`): `required_tags` is the lower-cased tag
set from the criteria; a movie passes when it is a subset of the movie's
lower-cased tag set. -/
def tagPass (tags : List String) (movie : Movie) : Bool :=
  let required_tags := tags.map lowerStr
  if required_tags.isEmpty then true
  else required_tags.all (fun t => (movie.tags.map lowerStr).contains t)

/-- The whole first pass for one movie (`server.py:364-388`); the source's
`continue`-chain is the conjunction of the individual filters in order. -/
def survivesCheapFilters (c : Criteria) (movie : Movie) : Bool :=
  genrePass c.genres movie &&
  minYearPass c.min_year movie.year &&
  maxYearPass c.max_year movie.year &&
  minRatingPass c.min_rating movie.community_rating &&
  maxRatingPass c.max_rating movie.community_rating &&
  tagPass c.tags movie

/-! ## Second pass: quality filters (`server.py:332-351`, `390-397`) -/

/-- Whether any quality constraint is active (`server.py:334-336`). -/
def hasQualityFilters (c : Criteria) : Bool :=
  truthyStr c.resolution || !c.hdr_types.isEmpty || !c.dv_profiles.isEmpty ||
  truthyStr c.dv_layer || !c.audio_formats.isEmpty || c.require_lossless_audio

/-- `fetch_and_check_quality` (`server.py:341-351`): fetch the full movie
(batch fetches return only one media source) and keep its id when the
quality predicate accepts it. The `asyncio.Semaphore(20)` only bounds
in-flight requests; the resulting id set is concurrency-independent. -/
def fetch_and_check_quality (env : SyncEnv) (c : Criteria) (movie_id : String) :
    Option String :=
  match env.fullMovie movie_id with
  | none => none
  | some full_movie =>
    if _movie_matches_quality_criteria full_movie c.resolution c.hdr_types
        c.dv_profiles c.dv_layer c.audio_formats c.require_lossless_audio then
      some movie_id
    else none

/-- The second pass over one batch's candidates (`server.py:391-397`). -/
def qualityPass (env : SyncEnv) (c : Criteria) (candidates : List Movie) : List Movie :=
  if hasQualityFilters c && !candidates.isEmpty then
    let quality_matched_ids := candidates.filterMap (fun m => fetch_and_check_quality env c m.id)
    candidates.filter (fun m => quality_matched_ids.contains m.id)
  else candidates

/-! ## Third pass: TMDb-based filters (`server.py:399-418`) -/

/-- Keyword filter (`server.py:413-416`): the lower-cased required keyword
set must intersect the movie's lower-cased TMDb keyword names. -/
def keywordPass (keywords : List String) (keywordNames : List String) : Bool :=
  let required_keywords := keywords.map lowerStr
  if required_keywords.isEmpty then true
  else required_keywords.any (fun k => (keywordNames.map lowerStr).contains k)

/-- The third pass for one movie (`server.py:400-416`): active when a
minimum b-movie score is present (`is not None` — a zero score bound is
active, unlike the truthiness-tested bounds) or keywords are required;
movies without a (truthy) TMDb id, or that TMDb cannot resolve, are
skipped. -/
def thirdPass (env : SyncEnv) (c : Criteria) (movie : Movie) : Bool :=
  if c.min_b_movie_score.isSome || !c.keywords.isEmpty then
    match movie.tmdb_id with
    | none => false
    | some tid =>
      if tid.data.isEmpty then false
      else
        match env.tmdbMovie tid with
        | none => false
        | some tmdb_data =>
          (match c.min_b_movie_score with
           | none => true
           | some ms => decide (ms ≤ env.bMovieScore tmdb_data)) &&
          keywordPass c.keywords (tmdb_data.keywords.map (·.name))
  else true

/-! ## The batch scan loop (`server.py:353-422`) -/

/-- The ids a single batch contributes to `matching_ids`
(`server.py:362-418`): cheap filters, then quality filters, then TMDb
filters. -/
def processBatch (env : SyncEnv) (c : Criteria) (movies : List Movie) : List String :=
  let candidates := movies.filter (survivesCheapFilters c)
  let candidates := qualityPass env c candidates
  (candidates.filter (thirdPass env c)).map (·.id)

/-- The `while True` pagination loop (`server.py:357-422`) under the
paginated-fetch model: with `get_movies(offset, limit) = ((library.drop
offset).take limit, library.length)`, the loop visits the chunks
`library.take 200, (library.drop 200).take 200, …` and stops on an empty
batch or when the running offset reaches the total count — i.e. exactly
when the remaining list is empty. The `fuel` argument bounds the number of
iterations structurally; the engine passes `library.length + 1`, which at
200 movies per iteration is never exhausted before the remaining list is
empty. -/
def scanChunks (env : SyncEnv) (c : Criteria) : Nat → List Movie → List String
  | 0, _ => []
  | _, [] => []
  | fuel + 1, remaining =>
    processBatch env c (remaining.take 200) ++ scanChunks env c fuel (remaining.drop 200)

/-! ## Trakt external-list mode (`server.py:268-313`) -/

/-- The TMDb-id set built from the Trakt list (`server.py:285`):
`{str(item.movie.tmdb_id) for item in all_trakt_items if
item.movie.tmdb_id}` (a zero id is falsy and skipped). -/
def traktTmdbIds (all_trakt_items : List TraktListItem) : Finset String :=
  (all_trakt_items.filterMap (fun item =>
    match item.movie.tmdb_id with
    | none => none
    | some n => if n = 0 then none else some (toString n))).toFinset

/-- The Emby-side match of the Trakt scan loop (`server.py:290-301`): a
movie matches when its (truthy) TMDb id is in the Trakt set. The loop's
batching is the same pagination pattern as the ordinary scan and visits
every library movie exactly once. -/
def traktMatchingIds (library : List Movie) (ids : Finset String) : Finset String :=
  ((library.filter (fun m =>
    match m.tmdb_id with
    | none => false
    | some t => !t.data.isEmpty && decide (t ∈ ids))).map (·.id)).toFinset

/-! ## The sync engine (`server.py:256-435`) -/

/-- A membership mutation issued to the Emby client. The payloads are sets:
the source passes `list(to_add)` of a Python set, whose enumeration order
is irrelevant to membership. -/
inductive EmbyCall where
  | add (collection_id : String) (ids : Finset String)
  | remove (collection_id : String) (ids : Finset String)
deriving DecidableEq

/-- The collection membership after a list of mutation calls. -/
def applyCalls (current : Finset String) : List EmbyCall → Finset String
  | [] => current
  | EmbyCall.add _ ids :: rest => applyCalls (current ∪ ids) rest
  | EmbyCall.remove _ ids :: rest => applyCalls (current \ ids) rest

/-- `server.py` `sync_collection_by_criteria`: returns the membership
mutation calls it issues (in order) and the summary report string.
`current_ids_list` is what `emby.get_collection_items` returned; the
source wraps it in `set(...)`. -/
def sync_collection_by_criteria (env : SyncEnv)
    (collection_id collection_name : String) (c : Criteria)
    (current_ids_list : List String) : List EmbyCall × String :=
  let current_ids := current_ids_list.toFinset
  if truthyStr c.trakt_username && truthyStr c.trakt_list_slug && env.trakt.isSome then
    -- Trakt list-based sync (`server.py:271-313`)
    let all_trakt_items := env.trakt.getD []
    let matching_ids := traktMatchingIds env.library (traktTmdbIds all_trakt_items)
    -- `server.py:303-307`: "Calculate and apply changes (add only, never remove)"
    let to_add := matching_ids \ current_ids
    (if to_add ≠ ∅ then [EmbyCall.add collection_id to_add] else [],
     "Synced '" ++ collection_name ++ "' from Trakt list: " ++
       toString matching_ids.card ++ " movies match, +" ++ toString to_add.card ++ " added")
  else
    let matching_ids := (scanChunks env c (env.library.length + 1) env.library).toFinset
    -- `server.py:424-429`: "Calculate changes (add only, never remove)"
    let to_add := matching_ids \ current_ids
    (if to_add ≠ ∅ then [EmbyCall.add collection_id to_add] else [],
     "Synced '" ++ collection_name ++ "': " ++
       toString matching_ids.card ++ " movies match, +" ++ toString to_add.card ++ " added")

/-! ## JSON values

The criteria dict that `encode_criteria`/`decode_criteria` round-trip
through `json.dumps`/`json.loads` is modelled by `Json`. Model
restrictions, documented here once: numbers are integers (`Int`) — float
formatting/parsing is elided, so the parser rejects fraction/exponent
forms — and strings are Unicode scalar values (`Char`), so the parser
rejects lone surrogate escapes. Arrays and objects are separate mutual
inductives rather than nested `List`s so that every function below is
structurally recursive and kernel-reducible. -/

mutual

inductive Json where
  | null : Json
  | bool (b : Bool) : Json
  | num (n : Int) : Json
  | str (s : String) : Json
  | arr (items : JsonArr) : Json
  | obj (members : JsonObj) : Json

inductive JsonArr where
  | nil : JsonArr
  | cons (hd : Json) (tl : JsonArr) : JsonArr

inductive JsonObj where
  | nil : JsonObj
  | cons (key : String) (val : Json) (tl : JsonObj) : JsonObj

end

deriving instance DecidableEq for Json, JsonArr, JsonObj

/-- Literal `{` (written via its code point to keep braces out of the
source text of string/char literals). -/
def obraceChar : Char := Char.ofNat 123

/-- Literal `}`. -/
def cbraceChar : Char := Char.ofNat 125

/-- Lower-case hex digit, as produced by `json.dumps` unicode escapes. -/
def hexDig (n : Nat) : Char :=
  if n < 10 then Char.ofNat (48 + n) else Char.ofNat (87 + n)

/-- Four-digit hex rendering of `n % 65536`. -/
def hex4 (n : Nat) : List Char :=
  [hexDig (n / 4096 % 16), hexDig (n / 256 % 16), hexDig (n / 16 % 16), hexDig (n % 16)]

/-- One character of a JSON string as emitted by `json.dumps` (defaults:
`ensure_ascii=True`, so control and non-ASCII characters become `\uXXXX`
escapes, astral characters a surrogate pair). -/
def escapeJsonChar (c : Char) : List Char :=
  if c = '"' then ['\\', '"']
  else if c = '\\' then ['\\', '\\']
  else if c = '\n' then ['\\', 'n']
  else if c = '\t' then ['\\', 't']
  else if c = '\r' then ['\\', 'r']
  else if c = Char.ofNat 8 then ['\\', 'b']
  else if c = Char.ofNat 12 then ['\\', 'f']
  else if c.toNat < 32 || c.toNat > 126 then
    if c.toNat ≤ 65535 then '\\' :: 'u' :: hex4 c.toNat
    else
      let m := c.toNat - 65536
      ('\\' :: 'u' :: hex4 (55296 + m / 1024)) ++ ('\\' :: 'u' :: hex4 (56320 + m % 1024))
  else [c]

/-- A JSON string literal as emitted by `json.dumps`. -/
def dumpJsonString (s : String) : List Char :=
  '"' :: (s.data.map escapeJsonChar).flatten ++ ['"']

mutual

/-- `json.dumps` with its default separators (`", "` and `": "`). -/
def json_dumps : Json → List Char
  | .null => "null".data
  | .bool true => "true".data
  | .bool false => "false".data
  | .num n => (toString n).data
  | .str s => dumpJsonString s
  | .arr items => '[' :: json_dumpsArr items ++ [']']
  | .obj members => obraceChar :: json_dumpsObj members ++ [cbraceChar]

def json_dumpsArr : JsonArr → List Char
  | .nil => []
  | .cons x .nil => json_dumps x
  | .cons x (JsonArr.cons y tl) =>
    json_dumps x ++ ',' :: ' ' :: json_dumpsArr (JsonArr.cons y tl)

def json_dumpsObj : JsonObj → List Char
  | .nil => []
  | .cons k v .nil => dumpJsonString k ++ ':' :: ' ' :: json_dumps v
  | .cons k v (JsonObj.cons k2 v2 tl) =>
    dumpJsonString k ++ ':' :: ' ' :: json_dumps v ++
      ',' :: ' ' :: json_dumpsObj (JsonObj.cons k2 v2 tl)

end

/-! ## JSON parsing (`json.loads`)

A recursive-descent parser over `List Char`, mirroring the strict-mode
grammar `json.loads` accepts (and returning `none` where it raises
`JSONDecodeError`). Recursion over values is bounded by an explicit fuel
argument so everything stays structurally recursive; `json_loads` supplies
`length + 1` fuel, which cannot run out because every nesting level
consumes at least one input character. -/

/-- JSON inter-token whitespace. -/
def skipWs : List Char → List Char
  | [] => []
  | c :: rest =>
    if c = ' ' || c = '\t' || c = '\n' || c = '\r' then skipWs rest else c :: rest

/-- Split a leading (possibly empty) run of decimal digits. -/
def takeDigits : List Char → List Char × List Char
  | [] => ([], [])
  | c :: rest =>
    if c.isDigit then
      let (ds, r) := takeDigits rest
      (c :: ds, r)
    else ([], c :: rest)

/-- Value of a digit run. -/
def digitsVal (ds : List Char) : Nat :=
  ds.foldl (fun a c => a * 10 + (c.toNat - 48)) 0

/-- Parse a JSON integer literal (sign, no leading zeros); a fraction or
exponent continuation means a float, outside the modelled domain. -/
def parseIntLit (s : List Char) : Option (Int × List Char) :=
  let (neg, s1) :=
    match s with
    | '-' :: rest => (true, rest)
    | _ => (false, s)
  let (ds, rest) := takeDigits s1
  if ds.isEmpty then none
  else if ds.length > 1 && ds.headD '0' = '0' then none
  else
    let n : Int := Int.ofNat (digitsVal ds)
    let result := some (if neg then -n else n, rest)
    match rest with
    | c :: _ => if c = '.' || c = 'e' || c = 'E' then none else result
    | [] => result

/-- One hex digit (either case accepted, as in `json.loads`). -/
def parseHexDigit (c : Char) : Option Nat :=
  if c.isDigit then some (c.toNat - 48)
  else if 'a' ≤ c && c ≤ 'f' then some (c.toNat - 87)
  else if 'A' ≤ c && c ≤ 'F' then some (c.toNat - 55)
  else none

/-- Four hex digits. -/
def parseHex4 : List Char → Option (Nat × List Char)
  | a :: b :: c :: d :: rest =>
    match parseHexDigit a, parseHexDigit b, parseHexDigit c, parseHexDigit d with
    | some x, some y, some z, some w => some (((x * 16 + y) * 16 + z) * 16 + w, rest)
    | _, _, _, _ => none
  | _ => none

/-- The body of a JSON string literal, after the opening quote. Strict mode:
raw control characters are rejected; surrogate-pair escapes are combined;
lone surrogate escapes are outside the modelled domain. -/
def parseStringBody : Nat → List Char → List Char → Option (String × List Char)
  | 0, _, _ => none
  | _ + 1, _, [] => none
  | fuel + 1, acc, c :: rest =>
    if c = '"' then some (String.mk acc.reverse, rest)
    else if c = '\\' then
      match rest with
      | [] => none
      | e :: rest2 =>
        if e = '"' then parseStringBody fuel ('"' :: acc) rest2
        else if e = '\\' then parseStringBody fuel ('\\' :: acc) rest2
        else if e = '/' then parseStringBody fuel ('/' :: acc) rest2
        else if e = 'b' then parseStringBody fuel (Char.ofNat 8 :: acc) rest2
        else if e = 'f' then parseStringBody fuel (Char.ofNat 12 :: acc) rest2
        else if e = 'n' then parseStringBody fuel ('\n' :: acc) rest2
        else if e = 'r' then parseStringBody fuel ('\r' :: acc) rest2
        else if e = 't' then parseStringBody fuel ('\t' :: acc) rest2
        else if e = 'u' then
          match parseHex4 rest2 with
          | none => none
          | some (n, rest3) =>
            if 55296 ≤ n && n ≤ 56319 then
              match rest3 with
              | '\\' :: 'u' :: rest4 =>
                match parseHex4 rest4 with
                | none => none
                | some (m, rest5) =>
                  if 56320 ≤ m && m ≤ 57343 then
                    parseStringBody fuel
                      (Char.ofNat (65536 + (n - 55296) * 1024 + (m - 56320)) :: acc) rest5
                  else none
              | _ => none
            else if 56320 ≤ n && n ≤ 57343 then none
            else parseStringBody fuel (Char.ofNat n :: acc) rest3
        else none
    else if c.toNat < 32 then none
    else parseStringBody fuel (c :: acc) rest

mutual

/-- Parse one JSON value (after skipping leading whitespace). -/
def parseJsonValue : Nat → List Char → Option (Json × List Char)
  | 0, _ => none
  | fuel + 1, s =>
    match skipWs s with
    | [] => none
    | c :: rest =>
      if c = 'n' then
        match rest with
        | 'u' :: 'l' :: 'l' :: r => some (.null, r)
        | _ => none
      else if c = 't' then
        match rest with
        | 'r' :: 'u' :: 'e' :: r => some (.bool true, r)
        | _ => none
      else if c = 'f' then
        match rest with
        | 'a' :: 'l' :: 's' :: 'e' :: r => some (.bool false, r)
        | _ => none
      else if c = '"' then
        match parseStringBody (rest.length + 1) [] rest with
        | none => none
        | some (str, r) => some (.str str, r)
      else if c = '-' || c.isDigit then
        match parseIntLit (c :: rest) with
        | none => none
        | some (n, r) => some (.num n, r)
      else if c = '[' then
        match skipWs rest with
        | ']' :: r => some (.arr .nil, r)
        | r2 =>
          match parseArrayItems fuel r2 with
          | none => none
          | some (items, r) => some (.arr items, r)
      else if c = obraceChar then
        match skipWs rest with
        | [] => none
        | c2 :: r =>
          if c2 = cbraceChar then some (.obj .nil, r)
          else
            match parseObjItems fuel (c2 :: r) with
            | none => none
            | some (members, r3) => some (.obj members, r3)
      else none

/-- Parse the comma-separated items of a non-empty array, including the
closing bracket. -/
def parseArrayItems : Nat → List Char → Option (JsonArr × List Char)
  | 0, _ => none
  | fuel + 1, s =>
    match parseJsonValue fuel s with
    | none => none
    | some (v, r) =>
      match skipWs r with
      | ',' :: r2 =>
        match parseArrayItems fuel r2 with
        | none => none
        | some (items, r3) => some (.cons v items, r3)
      | ']' :: r2 => some (.cons v .nil, r2)
      | _ => none

/-- Parse the members of a non-empty object, including the closing brace. -/
def parseObjItems : Nat → List Char → Option (JsonObj × List Char)
  | 0, _ => none
  | fuel + 1, s =>
    match skipWs s with
    | '"' :: rest =>
      match parseStringBody (rest.length + 1) [] rest with
      | none => none
      | some (key, r) =>
        match skipWs r with
        | ':' :: r2 =>
          match parseJsonValue fuel r2 with
          | none => none
          | some (v, r3) =>
            match skipWs r3 with
            | ',' :: r4 =>
              match parseObjItems fuel r4 with
              | none => none
              | some (members, r5) => some (.cons key v members, r5)
            | c :: r4 => if c = cbraceChar then some (.cons key v .nil, r4) else none
            | [] => none
        | _ => none
    | _ => none

end

/-- `json.loads`: parse one value and require only whitespace after it
(anything else raises, i.e. yields `none`). -/
def json_loads (s : List Char) : Option Json :=
  match parseJsonValue (s.length + 1) s with
  | none => none
  | some (j, rest) =>
    match skipWs rest with
    | [] => some j
    | _ => none

/-! ## Criteria codec (`server.py:21-56`) -/

/-- `server.py:21` `CRITERIA_MARKER`, as an explicit character list. -/
def CRITERIA_MARKER : List Char :=
  ['<', '!', '-', '-', ' ', 'S', 'Y', 'N', 'C', '_', 'C', 'R', 'I', 'T', 'E', 'R', 'I', 'A', ':']

/-- `server.py:22` `CRITERIA_END`, as an explicit character list. -/
def CRITERIA_END : List Char :=
  [':', 'E', 'N', 'D', '_', 'C', 'R', 'I', 'T', 'E', 'R', 'I', 'A', ' ', '-', '-', '>']

/-- `server.py` `encode_criteria`. -/
def encode_criteria (criteria : Json) : String :=
  String.mk (CRITERIA_MARKER ++ json_dumps criteria ++ CRITERIA_END)

/-- The lazy `(.+?)` of `decode_criteria`'s regex at a fixed start: the
shortest non-empty interior after which `CRITERIA_END` follows immediately;
`none` if the end marker never follows. (`re.DOTALL` lets the interior span
newlines, so every character is admissible.) -/
def endInterior : List Char → Option (List Char)
  | [] => none
  | c :: rest =>
    if CRITERIA_END.isPrefixOf rest then some [c]
    else
      match endInterior rest with
      | none => none
      | some p => some (c :: p)

/-- `re.search` of `decode_criteria`'s pattern: try each start position left
to right; at a position where the marker matches, take the shortest
non-empty interior followed by the end marker, else backtrack to later
start positions. -/
def searchCriteria : List Char → Option (List Char)
  | [] => none
  | c :: rest =>
    if CRITERIA_MARKER.isPrefixOf (c :: rest) then
      match endInterior (List.drop CRITERIA_MARKER.length (c :: rest)) with
      | some interior => some interior
      | none => searchCriteria rest
    else searchCriteria rest

/-- `server.py` `decode_criteria`: `None`/empty overview decodes to absent;
otherwise the first marker…end-marker span is extracted and parsed, a
`json.JSONDecodeError` being converted to absent. -/
def decode_criteria (overview : Option String) : Option Json :=
  match overview with
  | none => none
  | some s =>
    if s.data.isEmpty then none
    else
      match searchCriteria s.data with
      | some interior => json_loads interior
      | none => none

/-! ## Claim-side predicate for C4 (spec reading, for refutation)

Claim C4 reads the per-source audio match as testing *each stream's own*
derived format label. `audioCriteriaSpecC4` formalises exactly that
reading; it is written from the claim's words, NOT from the source, and
exists only to be compared against `_movie_matches_audio_criteria`. -/

/-- The claim's per-source audio match: some stream's own derived label
substring-matches a requested format, or some stream satisfies the
special-cased lossless/atmos/dts:x flag tests; when lossless is required,
some stream must be lossless. -/
def audioCriteriaSpecC4 (mi : MediaInfo) (audio_formats : List String)
    (require_lossless : Bool) : Bool :=
  (if require_lossless then mi.audio_streams.any (·.is_lossless) else true) &&
  (if audio_formats.isEmpty then true
   else mi.audio_streams.any (fun a =>
     (match audioStreamLabel a with
      | none => false
      | some l => !l.data.isEmpty &&
          audio_formats.any (fun fmt => strContains (lowerStr l) (lowerStr fmt))) ||
     streamFlagMatches audio_formats a))

/-! ## Concrete fixtures used by witnesses and counterexamples -/

/-- A plain stereo AAC stream (derived label "AAC"). -/
def aacStream : AudioStream := { codec := some "aac", channels := some 2 }

/-- A Dolby Digital Plus Atmos stream (derived label "Atmos"). -/
def atmosStream : AudioStream := { codec := some "eac3", channels := some 8, is_atmos := true }

/-- A plain Dolby Digital stream (derived label "DD"). -/
def ac3Stream : AudioStream := { codec := some "ac3", channels := some 6 }

/-- A lossless TrueHD stream (derived label "TrueHD"). -/
def truehdStream : AudioStream :=
  { codec := some "truehd", channels := some 8, is_lossless := true }

/-- A 4K source whose only audio is plain AAC. -/
def src4k : MediaInfo :=
  { video := some { codec := some "hevc", width := some 3840, height := some 2160 },
    audio_streams := [aacStream], primary_audio := some aacStream }

/-- A 1080p source whose only audio is Atmos. -/
def srcAtmos : MediaInfo :=
  { video := some { codec := some "h264", width := some 1920, height := some 1080 },
    audio_streams := [atmosStream], primary_audio := some atmosStream }

/-- C3's boundary movie: one source matches the resolution but not the
audio, the other matches the audio but not the resolution. -/
def c3movie : Movie :=
  { id := "m3", name := "Two Sources", all_media_sources := [src4k, srcAtmos] }

/-- The same movie with the source order reversed. -/
def c3movieRev : Movie :=
  { id := "m3r", name := "Two Sources Reversed", all_media_sources := [srcAtmos, src4k] }

/-- C4's counterexample source: the primary stream is AC3 (label "DD"), a
secondary stream is AAC (its own label would be "AAC"). -/
def c4mi : MediaInfo :=
  { audio_streams := [ac3Stream, aacStream], primary_audio := some ac3Stream }

/-- A two-movie library: a Horror movie and a Drama movie. -/
def fixtureLibrary : List Movie :=
  [{ id := "m1", name := "Scream Fixture", year := some 1996,
     genres := ["Horror"], community_rating := some 7 },
   { id := "m2", name := "Drama Fixture", year := some 2001,
     genres := ["Drama"], community_rating := some 8 }]

/-- Environment for the ordinary-criteria sync fixture (no Trakt service;
per-id and TMDb fetches are never consulted by the fixture criteria). -/
def fixtureEnv : SyncEnv :=
  { library := fixtureLibrary
    fullMovie := fun _ => none
    tmdbMovie := fun _ => none
    bMovieScore := fun _ => 0
    trakt := none }

/-- Genre-only criteria matching exactly the Horror fixture movie. -/
def fixtureCriteria : Criteria := { genres := ["Horror"] }

/-- Trakt item list for the external-list fixture: one movie with TMDb id
42. -/
def traktFixtureItems : List TraktListItem := [{ movie := { tmdb_id := some 42 } }]

/-- Environment for the Trakt-mode fixture: the library's first movie is on
the Trakt list, the second is not. -/
def traktFixtureEnv : SyncEnv :=
  { library :=
      [{ id := "t1", name := "Listed", tmdb_id := some "42" },
       { id := "t2", name := "Unlisted", tmdb_id := some "7" }]
    fullMovie := fun _ => none
    tmdbMovie := fun _ => none
    bMovieScore := fun _ => 0
    trakt := some traktFixtureItems }

/-- Criteria carrying an external-list (Trakt) reference. -/
def traktFixtureCriteria : Criteria :=
  { trakt_username := some "alice", trakt_list_slug := some "best-of" }

/-- C5's counterexample criteria: a JSON-representable value that contains
the end-marker literal. -/
def c5cex : Json := .obj (.cons "a" (.str ":END_CRITERIA -->") .nil)

/-! # Theorems -/

/-- C8: resolution classification by pixel width uses inclusive lower bounds
evaluated top-down: width ≥ 3840 is "4K", 1920 ≤ width < 3840 is "1080p",
1280 ≤ width < 1920 is "720p", 720 ≤ width < 1280 is "480p", width < 720 is
"SD", and a missing width is "Unknown"; exact threshold values classify into
the higher bucket (3840 is "4K", 3839 is "1080p"). -/
theorem c8_resolution_classification :
    (∀ w : Int, 3840 ≤ w → _get_resolution_label (some w) = "4K") ∧
    (∀ w : Int, 1920 ≤ w → w < 3840 → _get_resolution_label (some w) = "1080p") ∧
    (∀ w : Int, 1280 ≤ w → w < 1920 → _get_resolution_label (some w) = "720p") ∧
    (∀ w : Int, 720 ≤ w → w < 1280 → _get_resolution_label (some w) = "480p") ∧
    (∀ w : Int, w < 720 → _get_resolution_label (some w) = "SD") ∧
    _get_resolution_label none = "Unknown" ∧
    _get_resolution_label (some 3840) = "4K" ∧
    _get_resolution_label (some 3839) = "1080p" := by
  refine ⟨?_, ?_, ?_, ?_, ?_, rfl, rfl, rfl⟩
  · intro w h
    simp only [_get_resolution_label]
    rw [if_pos (by omega)]
  · intro w h1 h2
    simp only [_get_resolution_label]
    rw [if_neg (by omega), if_pos (by omega)]
  · intro w h1 h2
    simp only [_get_resolution_label]
    rw [if_neg (by omega), if_neg (by omega), if_pos (by omega)]
  · intro w h1 h2
    simp only [_get_resolution_label]
    rw [if_neg (by omega), if_neg (by omega), if_neg (by omega), if_pos (by omega)]
  · intro w h
    simp only [_get_resolution_label]
    rw [if_neg (by omega), if_neg (by omega), if_neg (by omega), if_neg (by omega)]

/-- Witness for C8: the classification evaluated at a concrete width in each
band. -/
theorem c8_resolution_classification_witness :
    _get_resolution_label (some 4096) = "4K" ∧
    _get_resolution_label (some 1921) = "1080p" ∧
    _get_resolution_label (some 1281) = "720p" ∧
    _get_resolution_label (some 721) = "480p" ∧
    _get_resolution_label (some 640) = "SD" :=
  ⟨c8_resolution_classification.1 4096 (by decide),
   c8_resolution_classification.2.1 1921 (by decide) (by decide),
   c8_resolution_classification.2.2.1 1281 (by decide) (by decide),
   c8_resolution_classification.2.2.2.1 721 (by decide) (by decide),
   c8_resolution_classification.2.2.2.2.1 640 (by decide)⟩

/-- C9: a year or rating bound present with value 0 is tested for
truthiness before being compared, so it filters nothing: every movie passes
that bound, and the whole cheap filter behaves as if the bound were
absent. -/
theorem c9_zero_bounds_inactive :
    (∀ y : Option Int, minYearPass (some 0) y = true) ∧
    (∀ y : Option Int, maxYearPass (some 0) y = true) ∧
    (∀ r : Option Rat, minRatingPass (some 0) r = true) ∧
    (∀ r : Option Rat, maxRatingPass (some 0) r = true) ∧
    (∀ (c : Criteria) (m : Movie),
      survivesCheapFilters { c with min_year := some 0 } m =
        survivesCheapFilters { c with min_year := none } m) ∧
    (∀ (c : Criteria) (m : Movie),
      survivesCheapFilters { c with max_year := some 0 } m =
        survivesCheapFilters { c with max_year := none } m) ∧
    (∀ (c : Criteria) (m : Movie),
      survivesCheapFilters { c with min_rating := some 0 } m =
        survivesCheapFilters { c with min_rating := none } m) ∧
    (∀ (c : Criteria) (m : Movie),
      survivesCheapFilters { c with max_rating := some 0 } m =
        survivesCheapFilters { c with max_rating := none } m) := by
  refine ⟨fun y => rfl, fun y => rfl, fun r => rfl, fun r => rfl, ?_, ?_, ?_, ?_⟩ <;>
    intro c m <;>
    simp [survivesCheapFilters, minYearPass, maxYearPass, minRatingPass, maxRatingPass]

/-- C10: a movie with no media sources and no primary media info never
matches the quality predicate, even with every constraint absent; and an
active (truthy) year or rating bound is never passed by a movie lacking
that attribute. -/
theorem c10_missing_data_never_matches :
    (∀ (m : Movie) (res : Option String) (hdr : List String) (dvp : List Int)
        (dvl : Option String) (af : List String) (rl : Bool),
      m.all_media_sources = [] → m.media_info = none →
      _movie_matches_quality_criteria m res hdr dvp dvl af rl = false) ∧
    (∀ mn : Int, mn ≠ 0 → minYearPass (some mn) none = false) ∧
    (∀ mx : Int, mx ≠ 0 → maxYearPass (some mx) none = false) ∧
    (∀ mn : Rat, mn ≠ 0 → minRatingPass (some mn) none = false) ∧
    (∀ mx : Rat, mx ≠ 0 → maxRatingPass (some mx) none = false) := by
  refine ⟨?_, ?_, ?_, ?_, ?_⟩
  · intro m res hdr dvp dvl af rl h1 h2
    simp [_movie_matches_quality_criteria, sourcesOf, h1, h2]
  · intro mn h
    simp [minYearPass, h]
  · intro mx h
    simp [maxYearPass, h]
  · intro mn h
    simp [minRatingPass, h]
  · intro mx h
    simp [maxRatingPass, h]

/-- Witness for C10: a concrete movie with no sources, checked both with all
constraints absent and with a resolution constraint; and the concrete
bounds evaluated on missing attributes. -/
theorem c10_missing_data_never_matches_witness :
    _movie_matches_quality_criteria { id := "w", name := "No Sources" }
      none [] [] none [] false = false ∧
    _movie_matches_quality_criteria { id := "w", name := "No Sources" }
      (some "4K") [] [] none [] false = false ∧
    minYearPass (some 1990) none = false ∧
    maxYearPass (some 2000) none = false ∧
    minRatingPass (some 5) none = false ∧
    maxRatingPass (some 8) none = false :=
  ⟨c10_missing_data_never_matches.1 _ none [] [] none [] false rfl rfl,
   c10_missing_data_never_matches.1 _ (some "4K") [] [] none [] false rfl rfl,
   c10_missing_data_never_matches.2.1 1990 (by decide),
   c10_missing_data_never_matches.2.2.1 2000 (by decide),
   c10_missing_data_never_matches.2.2.2.1 5 (by decide),
   c10_missing_data_never_matches.2.2.2.2 8 (by decide)⟩

/-- C7: in the cheap filter stage, a non-empty genre list passes iff the
movie has at least one of the listed genres (OR); a non-empty required-tags
set passes iff every required tag is among the movie's tags,
case-insensitively (AND / subset); and a non-empty required-keywords set
passes iff it intersects the movie's enrichment keyword names,
case-insensitively (OR). -/
theorem c7_filter_connectives :
    (∀ (genres : List String) (m : Movie), genres ≠ [] →
      (genrePass genres m = true ↔ ∃ g ∈ genres, g ∈ m.genres)) ∧
    (∀ (tags : List String) (m : Movie), tags ≠ [] →
      (tagPass tags m = true ↔ ∀ t ∈ tags, lowerStr t ∈ m.tags.map lowerStr)) ∧
    (∀ (keywords keywordNames : List String), keywords ≠ [] →
      (keywordPass keywords keywordNames = true ↔
        ∃ k ∈ keywords, lowerStr k ∈ keywordNames.map lowerStr)) := by
  refine ⟨?_, ?_, ?_⟩
  · intro genres m h
    simp [genrePass, List.isEmpty_iff, h, List.any_eq_true]
  · intro tags m h
    have hmap : tags.map lowerStr ≠ [] := by
      simpa using h
    simp [tagPass, List.isEmpty_iff, hmap, List.all_eq_true, List.forall_mem_map]
  · intro keywords keywordNames h
    have hmap : keywords.map lowerStr ≠ [] := by
      simpa using h
    simp [keywordPass, List.isEmpty_iff, hmap, List.any_eq_true]

/-- Witness for C7: the three filters evaluated on the concrete example of
the spec's fixture (a Horror movie with tag "campy" and keyword "gore"). -/
theorem c7_filter_connectives_witness :
    (genrePass ["Horror", "Comedy"]
      { id := "w7", name := "Fixture", genres := ["Horror"], tags := ["Campy", "Cult"] } = true ↔
      ∃ g ∈ ["Horror", "Comedy"], g ∈ ["Horror"]) ∧
    (tagPass ["campy"]
      { id := "w7", name := "Fixture", genres := ["Horror"], tags := ["Campy", "Cult"] } = true ↔
      ∀ t ∈ ["campy"], lowerStr t ∈ ["Campy", "Cult"].map lowerStr) ∧
    (keywordPass ["Gore"] ["gore", "slasher"] = true ↔
      ∃ k ∈ ["Gore"], lowerStr k ∈ ["gore", "slasher"].map lowerStr) :=
  ⟨c7_filter_connectives.1 ["Horror", "Comedy"] _ (by decide),
   c7_filter_connectives.2.1 ["campy"] _ (by decide),
   c7_filter_connectives.2.2 ["Gore"] ["gore", "slasher"] (by decide)⟩

/-- C3: whenever any audio constraint is given, the quality predicate
accepts a movie iff the *first* source (in list order) that passes the
video constraints also passes the audio constraints — both constraint
groups must hold on that one source; in particular the boundary movie with
one source matching resolution but not audio and another matching audio but
not resolution is rejected, in either source order. -/
theorem c3_constraints_on_single_first_source :
    (∀ (m : Movie) (res : Option String) (hdr : List String) (dvp : List Int)
        (dvl : Option String) (af : List String) (rl : Bool),
      af ≠ [] ∨ rl = true →
      (_movie_matches_quality_criteria m res hdr dvp dvl af rl = true ↔
        ∃ s, (sourcesOf m).find? (fun s =>
            _source_matches_video_criteria (some s) res hdr dvp dvl) = some s ∧
          _movie_matches_audio_criteria (some s) af rl = true)) ∧
    _movie_matches_quality_criteria c3movie (some "4K") [] [] none ["Atmos"] false = false ∧
    _movie_matches_quality_criteria c3movieRev (some "4K") [] [] none ["Atmos"] false = false := by
  refine ⟨?_, by decide, by decide⟩
  intro m res hdr dvp dvl af rl haud
  have hcond : (!af.isEmpty || rl) = true := by
    rcases haud with h | h
    · simp [List.isEmpty_iff, h]
    · simp [h]
  simp only [_movie_matches_quality_criteria]
  cases hemp : (sourcesOf m).isEmpty with
  | true =>
    have h0 : sourcesOf m = [] := List.isEmpty_iff.mp hemp
    simp [h0]
  | false =>
    cases hfind : (sourcesOf m).find? (fun s =>
        _source_matches_video_criteria (some s) res hdr dvp dvl) with
    | none => simp [hemp, hfind]
    | some s => simp [hemp, hfind, hcond]

/-- Witness for C3: the characterization instantiated at the concrete
two-source movie with a resolution and an audio-format constraint. -/
theorem c3_constraints_on_single_first_source_witness :
    _movie_matches_quality_criteria c3movie (some "4K") [] [] none ["Atmos"] false = true ↔
      ∃ s, (sourcesOf c3movie).find? (fun s =>
          _source_matches_video_criteria (some s) (some "4K") [] [] none) = some s ∧
        _movie_matches_audio_criteria (some s) ["Atmos"] false = true :=
  c3_constraints_on_single_first_source.1 c3movie (some "4K") [] [] none ["Atmos"] false
    (Or.inl (by decide))

/-- The audio-format loop accepts iff the (stream-independent) primary-label
test succeeds on a non-empty stream list, or some stream passes the
special-cased flag tests. -/
theorem audioFormatLoop_iff (mi : MediaInfo) (af : List String)
    (streams : List AudioStream) :
    audioFormatLoop mi af streams = true ↔
      ((streams ≠ [] ∧ primaryLabelMatches mi af = true) ∨
       ∃ a ∈ streams, streamFlagMatches af a = true) := by
  induction streams with
  | nil => simp [audioFormatLoop]
  | cons a rest ih =>
    simp only [audioFormatLoop]
    cases hp : primaryLabelMatches mi af with
    | true => simp [hp]
    | false =>
      cases hf : streamFlagMatches af a with
      | true => simp [hf]
      | false => simp [hp, hf, ih]

/-- Counterexample to C4 as stated: the claim's per-stream-label reading
(`audioCriteriaSpecC4`) accepts a source whose secondary AAC stream's own
label matches the requested "AAC", but the code derives the label from the
source's *primary* stream (AC3, label "DD") on every loop iteration and
rejects it. -/
theorem c4_counterexample :
    _movie_matches_audio_criteria (some c4mi) ["AAC"] false = false ∧
    audioCriteriaSpecC4 c4mi ["AAC"] false = true := by
  exact ⟨by decide, by decide⟩

/-- C4 amended: the per-source audio match holds iff (when lossless is
required) some stream of the source is lossless, and (when formats are
requested) either the source has at least one audio stream and the label
derived from the source's *primary* audio stream case-insensitively
substring-matches some requested format, or some stream passes the
special-cased "lossless"/"atmos"/"dts:x" flag tests. -/
theorem c4_audio_match_amended (mi : MediaInfo) (af : List String) (rl : Bool) :
    _movie_matches_audio_criteria (some mi) af rl = true ↔
      ((rl = true → mi.audio_streams.any (·.is_lossless) = true) ∧
       (af ≠ [] →
         ((mi.audio_streams ≠ [] ∧ primaryLabelMatches mi af = true) ∨
          ∃ a ∈ mi.audio_streams, streamFlagMatches af a = true))) := by
  simp only [_movie_matches_audio_criteria]
  cases rl with
  | false =>
    cases haf : af.isEmpty with
    | true => simp [List.isEmpty_iff.mp haf]
    | false =>
      have hafne : af ≠ [] := List.isEmpty_eq_false.mp haf
      simp [haf, audioFormatLoop_iff, hafne]
  | true =>
    cases hany : mi.audio_streams.any (·.is_lossless) with
    | false => simp [hany]
    | true =>
      cases haf : af.isEmpty with
      | true => simp [hany, List.isEmpty_iff.mp haf]
      | false =>
        have hafne : af ≠ [] := List.isEmpty_eq_false.mp haf
        simp [hany, haf, audioFormatLoop_iff, hafne]

/-- C1 (code behaviour at the failing input): with ordinary genre criteria
on the two-movie fixture library and a current membership containing the
non-matching movie "m2", the engine issues no removal (and no call at all
when nothing is to be added), reports `"Synced '<name>': <N> movies match,
+<K> added"` with no removed count, and "m2" remains a member — against
the claim's (and the sync tool description's) `to_remove` behaviour. -/
theorem c1_filter_sync_is_add_only :
    sync_collection_by_criteria fixtureEnv "c1" "Horror" fixtureCriteria ["m1", "m2"] =
      ([], "Synced 'Horror': 1 movies match, +0 added") ∧
    sync_collection_by_criteria fixtureEnv "c1" "Horror" fixtureCriteria ["m2"] =
      ([EmbyCall.add "c1" {"m1"}], "Synced 'Horror': 1 movies match, +1 added") ∧
    "m2" ∈ applyCalls (["m2"] : List String).toFinset
      (sync_collection_by_criteria fixtureEnv "c1" "Horror" fixtureCriteria ["m2"]).1 := by
  exact ⟨by decide, by decide, by decide⟩

/-- C2: a sync whose criteria carry a Trakt external-list reference (and a
Trakt service) issues no removal call — at most one add call of
`matched − current` — and every prior member is still a member
afterwards. -/
theorem c2_trakt_sync_additive_only (env : SyncEnv) (cid cname : String)
    (c : Criteria) (cur : List String)
    (h1 : truthyStr c.trakt_username = true)
    (h2 : truthyStr c.trakt_list_slug = true)
    (h3 : env.trakt.isSome = true) :
    (∀ (cid2 : String) (ids : Finset String),
        EmbyCall.remove cid2 ids ∉ (sync_collection_by_criteria env cid cname c cur).1) ∧
    cur.toFinset ⊆ applyCalls cur.toFinset (sync_collection_by_criteria env cid cname c cur).1 ∧
    ((sync_collection_by_criteria env cid cname c cur).1 = [] ∨
      ∃ A : Finset String,
        (sync_collection_by_criteria env cid cname c cur).1 = [EmbyCall.add cid A]) := by
  have hcond : (truthyStr c.trakt_username && truthyStr c.trakt_list_slug &&
      env.trakt.isSome) = true := by
    simp [h1, h2, h3]
  simp only [sync_collection_by_criteria, hcond, if_true]
  refine ⟨?_, ?_, ?_⟩
  · intro cid2 ids
    split
    · simp
    · simp
  · split
    · simp only [applyCalls]
      exact Finset.subset_union_left
    · simp only [applyCalls]
      exact subset_rfl
  · split
    · right
      exact ⟨_, rfl⟩
    · left
      rfl

/-- Witness for C2: the additive-only conclusions at the concrete Trakt
fixture (one listed movie to add, one unlisted current member kept). -/
theorem c2_trakt_sync_additive_only_witness :
    (∀ (cid2 : String) (ids : Finset String),
        EmbyCall.remove cid2 ids ∉
          (sync_collection_by_criteria traktFixtureEnv "c9" "Trakt List"
            traktFixtureCriteria ["t2"]).1) ∧
    (["t2"] : List String).toFinset ⊆
      applyCalls (["t2"] : List String).toFinset
        (sync_collection_by_criteria traktFixtureEnv "c9" "Trakt List"
          traktFixtureCriteria ["t2"]).1 ∧
    ((sync_collection_by_criteria traktFixtureEnv "c9" "Trakt List"
        traktFixtureCriteria ["t2"]).1 = [] ∨
      ∃ A : Finset String,
        (sync_collection_by_criteria traktFixtureEnv "c9" "Trakt List"
          traktFixtureCriteria ["t2"]).1 = [EmbyCall.add "c9" A]) :=
  c2_trakt_sync_additive_only traktFixtureEnv "c9" "Trakt List" traktFixtureCriteria ["t2"]
    (by decide) (by decide) rfl

/-- Witness for the amended C4: the characterization instantiated at the
concrete Atmos source with a requested "Atmos" format. -/
theorem c4_audio_match_amended_witness :
    _movie_matches_audio_criteria (some srcAtmos) ["Atmos"] false = true ↔
      ((false = true → srcAtmos.audio_streams.any (·.is_lossless) = true) ∧
       ((["Atmos"] : List String) ≠ [] →
         ((srcAtmos.audio_streams ≠ [] ∧ primaryLabelMatches srcAtmos ["Atmos"] = true) ∨
          ∃ a ∈ srcAtmos.audio_streams, streamFlagMatches ["Atmos"] a = true))) :=
  c4_audio_match_amended srcAtmos ["Atmos"] false

/-! ### Codec lemmas -/

/-- Unfolding equation of `endInterior` at a cons. -/
theorem endInterior_cons (c : Char) (rest : List Char) :
    endInterior (c :: rest) =
      if CRITERIA_END.isPrefixOf rest then some [c]
      else
        match endInterior rest with
        | none => none
        | some p => some (c :: p) := rfl

/-- Unfolding equation of `searchCriteria` at a cons. -/
theorem searchCriteria_cons (c : Char) (rest : List Char) :
    searchCriteria (c :: rest) =
      if CRITERIA_MARKER.isPrefixOf (c :: rest) then
        match endInterior (List.drop CRITERIA_MARKER.length (c :: rest)) with
        | some interior => some interior
        | none => searchCriteria rest
      else searchCriteria rest := rfl

/-- The end-marker literal has no non-trivial border (no proper prefix that
is also a suffix), so no occurrence of it can straddle the boundary between
the JSON payload and the appended end marker. -/
theorem endMarker_no_border :
    ∀ k, k < CRITERIA_END.length → 0 < k →
      CRITERIA_END.take k ≠ CRITERIA_END.drop (CRITERIA_END.length - k) := by decide

/-- A non-empty list shorter than the end marker cannot have the end marker
as a prefix of itself followed by the end marker: that would force a
non-trivial border of the end marker. -/
theorem no_straddle (t : List Char) (htlen : t.length < CRITERIA_END.length)
    (hpre : CRITERIA_END <+: (t ++ CRITERIA_END)) :
    t.length = 0 := by
  by_contra ht0
  obtain ⟨r, hr⟩ := hpre
  have h2 := congrArg (List.drop t.length) hr
  rw [List.drop_append_eq_append_drop, List.drop_append_eq_append_drop,
      Nat.sub_self, List.drop_zero, List.drop_length, List.nil_append] at h2
  have e1 : t.length - CRITERIA_END.length = 0 := Nat.sub_eq_zero_of_le (le_of_lt htlen)
  rw [e1, List.drop_zero] at h2
  have hpre2 : CRITERIA_END.drop t.length <+: CRITERIA_END := ⟨r, h2⟩
  have h3 := List.prefix_iff_eq_take.mp hpre2
  rw [List.length_drop] at h3
  have hlt : CRITERIA_END.length - (CRITERIA_END.length - t.length) = t.length := by omega
  apply endMarker_no_border (CRITERIA_END.length - t.length) (by omega) (by omega)
  rw [hlt]
  exact h3.symm

/-- If the end marker does not occur inside `D`, it also does not occur at
any interior position of `D ++ CRITERIA_END` strictly before `D.length`. -/
theorem no_early_end (D : List Char) (hinf : ¬ (CRITERIA_END <:+: D)) :
    ∀ p, 0 < p → p < D.length →
      ¬ (CRITERIA_END <+: (D.drop p ++ CRITERIA_END)) := by
  intro p hp0 hpl hpre
  have htlen : (D.drop p).length = D.length - p := List.length_drop p D
  by_cases hc : CRITERIA_END.length ≤ (D.drop p).length
  · have hEt : CRITERIA_END <+: D.drop p :=
      List.prefix_of_prefix_length_le hpre (List.prefix_append _ _) hc
    apply hinf
    obtain ⟨r, hr⟩ := hEt
    exact ⟨D.take p, r, by rw [List.append_assoc, hr, List.take_append_drop]⟩
  · push_neg at hc
    have h0 := no_straddle (D.drop p) hc hpre
    rw [htlen] at h0
    omega

/-- When the end marker occurs nowhere strictly inside `D ++ CRITERIA_END`
before position `D.length`, the lazy interior extraction returns exactly
`D`. -/
theorem endInterior_append (D : List Char) (hne : D ≠ [])
    (h : ∀ p, 0 < p → p < D.length →
      ¬ (CRITERIA_END <+: (D.drop p ++ CRITERIA_END))) :
    endInterior (D ++ CRITERIA_END) = some D := by
  induction D with
  | nil => exact absurd rfl hne
  | cons c D' ih =>
    rw [List.cons_append, endInterior_cons]
    by_cases hD' : D' = []
    · subst hD'
      have hpre : CRITERIA_END.isPrefixOf ([] ++ CRITERIA_END) = true := by
        rw [List.nil_append, List.isPrefixOf_iff_prefix]
      simp [hpre]
    · have hlen : 0 < D'.length := List.length_pos.mpr hD'
      have hnotpre : ¬ (CRITERIA_END.isPrefixOf (D' ++ CRITERIA_END) = true) := by
        intro hcontra
        rw [List.isPrefixOf_iff_prefix] at hcontra
        refine h 1 one_pos ?_ ?_
        · simp only [List.length_cons]
          omega
        · simpa using hcontra
      have hIH : endInterior (D' ++ CRITERIA_END) = some D' := by
        refine ih hD' ?_
        intro p hp0 hpl
        have h2 := h (p + 1) (by omega) (by simp only [List.length_cons]; omega)
        simpa using h2
      simp [hnotpre, hIH]

/-- `re.search` on `marker ++ interior ++ end-marker` finds exactly the
interior extracted by `endInterior`. -/
theorem searchCriteria_marked (D : List Char)
    (hint : endInterior (D ++ CRITERIA_END) = some D) :
    searchCriteria (CRITERIA_MARKER ++ (D ++ CRITERIA_END)) = some D := by
  have hshape : CRITERIA_MARKER ++ (D ++ CRITERIA_END) =
      '<' :: (CRITERIA_MARKER.tail ++ (D ++ CRITERIA_END)) := rfl
  rw [hshape, searchCriteria_cons, ← hshape]
  have hpre : CRITERIA_MARKER.isPrefixOf (CRITERIA_MARKER ++ (D ++ CRITERIA_END)) = true := by
    rw [List.isPrefixOf_iff_prefix]
    exact List.prefix_append _ _
  rw [List.drop_left]
  simp [hpre, hint]

/-- Without any marker occurrence, the regex search fails. -/
theorem searchCriteria_none_of_no_marker (t : List Char)
    (h : ¬ (CRITERIA_MARKER <:+: t)) : searchCriteria t = none := by
  induction t with
  | nil => rfl
  | cons c rest ih =>
    rw [searchCriteria_cons]
    have hpre : ¬ (CRITERIA_MARKER.isPrefixOf (c :: rest) = true) := by
      intro hcontra
      rw [List.isPrefixOf_iff_prefix] at hcontra
      exact h (hcontra.isInfix)
    have hrest : ¬ (CRITERIA_MARKER <:+: rest) := fun hinf => h (List.infix_cons hinf)
    simp [hpre, ih hrest]

/-- Counterexample to C5 as stated: the criteria value `{"a": ":END_CRITERIA
-->"}` is JSON-representable (it survives a dump/load round-trip), yet
decoding its encoding yields absent instead of the original criteria — the
non-greedy regex stops at the end-marker occurrence inside the string value
and hands truncated JSON to the parser. -/
theorem c5_roundtrip_counterexample :
    json_loads (json_dumps c5cex) = some c5cex ∧
    decode_criteria (some (encode_criteria c5cex)) = none := by
  exact ⟨by decide, by decide⟩

/-- C5 amended: `decode(encode(criteria)) == criteria` for every criteria
that survives a JSON dump/load round-trip, provided the end-marker literal
does not occur inside the criteria's JSON encoding. -/
theorem c5_roundtrip_amended (c : Json)
    (hjson : json_loads (json_dumps c) = some c)
    (hend : ¬ (CRITERIA_END <:+: json_dumps c)) :
    decode_criteria (some (encode_criteria c)) = some c := by
  have hne : json_dumps c ≠ [] := by
    intro h0
    rw [h0] at hjson
    have hnil : json_loads ([] : List Char) = none := rfl
    rw [hnil] at hjson
    exact Option.noConfusion hjson
  have hint : endInterior (json_dumps c ++ CRITERIA_END) = some (json_dumps c) :=
    endInterior_append _ hne (no_early_end _ hend)
  have hsearch := searchCriteria_marked _ hint
  show decode_criteria
    (some (String.mk (CRITERIA_MARKER ++ json_dumps c ++ CRITERIA_END))) = some c
  simp only [decode_criteria]
  rw [List.append_assoc]
  have hemp : (CRITERIA_MARKER ++ (json_dumps c ++ CRITERIA_END)).isEmpty = false := by
    rw [List.isEmpty_eq_false]
    simp [CRITERIA_MARKER]
  simp [hemp, hsearch, hjson]

/-- Witness for the amended C5: a realistic criteria object round-trips
through encode and decode. -/
theorem c5_roundtrip_amended_witness :
    decode_criteria (some (encode_criteria
      (Json.obj (.cons "genres" (.arr (.cons (.str "Horror") .nil))
        (.cons "min_year" (.num 1980) .nil))))) =
      some (Json.obj (.cons "genres" (.arr (.cons (.str "Horror") .nil))
        (.cons "min_year" (.num 1980) .nil))) :=
  c5_roundtrip_amended _ (by decide) (by decide)

/-- C6: decoding is total and silent — a `None` overview, an overview with
no marker occurrence, and an overview whose extracted interior is not valid
JSON all decode to absent rather than raising. -/
theorem c6_decode_silent_on_bad_input (t : String) :
    (¬ (CRITERIA_MARKER <:+: t.data) → decode_criteria (some t) = none) ∧
    (∀ interior, searchCriteria t.data = some interior → json_loads interior = none →
      decode_criteria (some t) = none) ∧
    decode_criteria none = none := by
  refine ⟨?_, ?_, rfl⟩
  · intro h
    simp only [decode_criteria]
    rw [searchCriteria_none_of_no_marker t.data h]
    cases hemp : t.data.isEmpty <;> simp [hemp]
  · intro interior hsearch hload
    simp only [decode_criteria]
    cases hemp : t.data.isEmpty with
    | true => simp [hemp]
    | false => simp [hemp, hsearch, hload]

/-- Witness for C6: a marker-free text decodes to absent, and so does a
marker whose interior is truncated JSON. -/
theorem c6_decode_silent_on_bad_input_witness :
    decode_criteria (some "no criteria here") = none ∧
    decode_criteria (some "<!-- SYNC_CRITERIA:\x7b\"a\": tru:END_CRITERIA -->") = none :=
  ⟨(c6_decode_silent_on_bad_input "no criteria here").1 (by decide),
   (c6_decode_silent_on_bad_input "<!-- SYNC_CRITERIA:\x7b\"a\": tru:END_CRITERIA -->").2.1
     ("\x7b\"a\": tru".data) (by decide) (by decide)⟩

end EmbyCC
